import Mathlib

/-!
Verification of the Python FORTH toolchain (compiler.py, builtins.py,
interpreter.py) against its natural-language specification.

The Python source is shallowly embedded: pure functions become Lean
functions, the mutable interpreter object becomes an explicit record that
every operation threads, Python exceptions become `Except` errors, and
Python float literals become `Rat` (every numeric literal appearing in the
theorems below is a small integer, on which Python float arithmetic is
exact).  Iteration uses explicit fuel so that all definitions are
structurally recursive and reduce inside the kernel.
-/

namespace Forth

/-! ## Compiler data model (compiler.py) -/

/-- Compile-time failures. `CompilerError` is raised by `syntax_analysis`;
the index/attribute constructors model the Python exceptions that would
escape on inputs the checks do not reach. -/
inductive CompErr where
  | noCodeBlock
  | incompleteString
  | internalIndexError
  | internalAttributeError
  deriving DecidableEq, Repr

/-- One instruction of a callable payload.  `num` embeds `CodeNumber`
(`data` is the Python float of the token), `str` embeds `CodeString`, and
`op` is a bare operation-name string kept verbatim
(compiler.py, build_result). -/
inductive Instr where
  | num (q : Rat)
  | str (s : String)
  | op (s : String)
  deriving DecidableEq, Repr

/-- `compiler.Callable`: an ordered instruction payload. -/
structure Callable where
  payload : List Instr
  deriving DecidableEq, Repr

/-- `compiler.CodeBlock`: the compiled program, a dictionary from callable
name to `Callable`, modelled as an association list with Python dict
update semantics (replace the existing key, else append). -/
structure CodeBlock where
  callable_functions : List (String × Callable)
  deriving DecidableEq, Repr

/-- Python `str.strip` whitespace set (space, tab, newline, return,
vertical tab, form feed). -/
def pySpace (c : Char) : Bool :=
  c = ' ' || c = '\t' || c = '\n' || c = '\r' || c = '\x0b' || c = '\x0c'

/-- Python `str.strip()` on a character list. -/
def pyStrip (cs : List Char) : List Char :=
  ((cs.dropWhile pySpace).reverse.dropWhile pySpace).reverse

def pyStripStr (s : String) : String :=
  String.mk (pyStrip s.toList)

/-- `re.sub` of the non-greedy comment pattern `\(.*?\)` (DOTALL): scan
left to right; each `(` that is followed by some `)` is removed together
with everything up to and including the first such `)`; a `(` with no
later `)` is kept.  Fuel bounds the scan (input length suffices). -/
def stripComments : Nat → List Char → List Char
  | 0, cs => cs
  | _ + 1, [] => []
  | fuel + 1, c :: rest =>
    if c = '(' then
      match rest.findIdx? (· = ')') with
      | some i => stripComments fuel (rest.drop (i + 1))
      | none => c :: stripComments fuel rest
    else c :: stripComments fuel rest

/-- The quoted-string alternative `["]([^"])+["]` of `_language_regex`,
tried at a position whose character is `"`: it matches exactly when at
least one non-quote character is followed by a closing quote; returns the
body and the remainder after the closing quote. -/
def splitAtQuote (cs : List Char) : Option (List Char × List Char) :=
  match cs.findIdx? (· = '"') with
  | none => none
  | some 0 => none
  | some i => some (cs.take i, cs.drop (i + 1))

/-- `re.finditer(_language_regex, line)` on one (already stripped) line,
returning the stripped token texts.  The regex alternatives, in priority
order at each match position: `:.+` (a colon with at least one further
character swallows the rest of the line), `["]([^"])+["]` (a quoted
string), ` *\S+ *` (a word with surrounding spaces; the match consumes the
trailing spaces, and the recorded token text is stripped).  Positions at
which no alternative matches are skipped.  Fuel bounds the scan. -/
def findTokens : Nat → List Char → List String
  | 0, _ => []
  | _ + 1, [] => []
  | fuel + 1, c :: rest =>
    if c = ':' && rest ≠ [] then
      [pyStripStr (String.mk (c :: rest))]
    else if c = '"' then
      match splitAtQuote rest with
      | some (body, after) =>
          String.mk ('"' :: (body ++ ['"'])) :: findTokens fuel after
      | none =>
          let w := (c :: rest).takeWhile (fun x => !pySpace x)
          let rem := ((c :: rest).dropWhile (fun x => !pySpace x)).dropWhile pySpace
          String.mk w :: findTokens fuel rem
    else if pySpace c then
      match (c :: rest).dropWhile pySpace with
      | [] => []
      | d :: drest =>
          if d = ':' && drest ≠ [] then
            [pyStripStr (String.mk (d :: drest))]
          else if d = '"' then
            match splitAtQuote drest with
            | some (body, after) =>
                String.mk ('"' :: (body ++ ['"'])) :: findTokens fuel after
            | none =>
                let w := (d :: drest).takeWhile (fun x => !pySpace x)
                let rem := ((d :: drest).dropWhile (fun x => !pySpace x)).dropWhile pySpace
                String.mk w :: findTokens fuel rem
          else
            let w := (d :: drest).takeWhile (fun x => !pySpace x)
            let rem := ((d :: drest).dropWhile (fun x => !pySpace x)).dropWhile pySpace
            String.mk w :: findTokens fuel rem
    else
      let w := (c :: rest).takeWhile (fun x => !pySpace x)
      let rem := ((c :: rest).dropWhile (fun x => !pySpace x)).dropWhile pySpace
      String.mk w :: findTokens fuel rem

/-- Python `"..".split("\n")`. -/
def splitLines : List Char → List (List Char)
  | [] => [[]]
  | '\n' :: r => [] :: splitLines r
  | c :: r =>
    match splitLines r with
    | [] => [[c]]
    | l :: ls => (c :: l) :: ls

/-- `Compiler.get_tokens`: strip comments, strip the buffer, split into
lines, strip each line, skip blank lines, and tokenize each remaining
line.  Token positions (line/start/end) feed only the diagnostic text in
the source and are not observable by any claim, so only the token texts
are kept, grouped per line. -/
def getTokens (input : String) : List (List String) :=
  let cs := pyStrip (stripComments (input.toList.length + 1) input.toList)
  (splitLines cs).filterMap fun l =>
    let l' := pyStrip l
    if l' = [] then none else some (findTokens (l'.length + 1) l')

/-- `Compiler.syntax_analysis` walked over the flattened token stream (the
source walks lines then tokens, which visits the same token sequence):
no token before the first block header, and a token that begins or ends
with a quote must do both.  The formatted caret diagnostics carry no
information used by any claim and are collapsed into error values. -/
def validateTokens : Bool → List String → Except CompErr Unit
  | _, [] => .ok ()
  | processed, t :: rest =>
    match t.toList with
    | [] => .error .internalIndexError
    | c :: cs =>
      if !processed && c ≠ ':' then .error .noCodeBlock
      else
        let last := (c :: cs).getLastD c
        if (c = '"' && last ≠ '"') || (last = '"' && c ≠ '"') then
          .error .incompleteString
        else validateTokens true rest

/-- Python `float(token)` restricted to the literal forms the token
scanner can produce without an exponent: optional sign, digits, optional
decimal point (at least one digit overall).  On such inputs Python float
conversion is exact for the small literals exercised here. -/
def pyFloat (t : String) : Option Rat :=
  let cs := pyStrip t.toList
  let (neg, cs) :=
    match cs with
    | '-' :: r => (true, r)
    | '+' :: r => (false, r)
    | r => (false, r)
  let ip := cs.takeWhile (· ≠ '.')
  let rest := cs.dropWhile (· ≠ '.')
  let digitsVal : List Char → Nat := fun ds => ds.foldl (fun a c => a * 10 + (c.toNat - 48)) 0
  match rest with
  | [] =>
    if ip ≠ [] && ip.all Char.isDigit then
      some (if neg then -(digitsVal ip : Rat) else (digitsVal ip : Rat))
    else none
  | '.' :: fp =>
    if (ip ≠ [] || fp ≠ []) && ip.all Char.isDigit && fp.all Char.isDigit then
      let v : Rat := (digitsVal ip : Rat) + (digitsVal fp : Rat) / ((10 : Rat) ^ fp.length)
      some (if neg then -v else v)
    else none
  | _ => none

/-- `text.rstrip("\"").lstrip("\"")`: remove every leading and trailing
quote character. -/
def stripQuotes (t : String) : String :=
  String.mk (((t.toList.dropWhile (· = '"')).reverse.dropWhile (· = '"')).reverse)

/-- Python dict assignment on an association list: replace the first
binding of the key, else append. -/
def dictSet (m : List (String × Callable)) (k : String) (v : Callable) :
    List (String × Callable) :=
  match m with
  | [] => [(k, v)]
  | (k', v') :: rest =>
    if k' = k then (k, v) :: rest else (k', v') :: dictSet rest k v

/-- Python dict lookup on an association list. -/
def dictGetC (m : List (String × Callable)) (k : String) : Option Callable :=
  match m with
  | [] => none
  | (k', v') :: rest => if k' = k then some v' else dictGetC rest k

/-- `Compiler.build_result` body, with the source ordering preserved
exactly: on a header token, `current_callable_name` is reassigned to the
NEW name first, and only then is the pending instruction list published
under that (new) name; at end of input an open, non-empty list is
published under the current name. -/
def buildGo : List String → Option String → Option (List Instr) →
    List (String × Callable) → Except CompErr CodeBlock
  | [], curName, curData, result =>
    match curName, curData with
    | some n, some d =>
      if d.length ≠ 0 then .ok ⟨dictSet result n ⟨d⟩⟩ else .ok ⟨result⟩
    | _, _ => .ok ⟨result⟩
  | t :: rest, curName, curData, result =>
    match t.toList with
    | [] => .error .internalIndexError
    | c :: cs =>
      if c = ':' then
        let newName := pyStripStr (String.mk cs)
        let result' :=
          match curData with
          | some d => dictSet result newName ⟨d⟩
          | none => result
        buildGo rest (some newName) (some []) result'
      else
        match curData with
        | none => .error .internalAttributeError
        | some d =>
          match pyFloat t with
          | some q => buildGo rest curName (some (d ++ [Instr.num q])) result
          | none =>
            let last := (c :: cs).getLastD c
            if c = '"' && last = '"' then
              buildGo rest curName (some (d ++ [Instr.str (stripQuotes t)])) result
            else
              buildGo rest curName (some (d ++ [Instr.op t])) result

def buildResult (tokens : List String) : Except CompErr CodeBlock :=
  buildGo tokens none none []

/-- `Compiler.compile_forth`: tokenize, check the token stream
(`syntax_analysis`), run `lexical_analysis` — whose body in the source is
literally `pass`, so it is the identity here — collapse the per-line
groups, and build the code block. -/
def compileForth (src : String) : Except CompErr CodeBlock := do
  let toks := getTokens src
  let _ ← validateTokens false toks.flatten
  buildResult toks.flatten

/-! ## Dynamic values (the types Python puts on the operand stack) -/

/-- A dynamic stack value: a Python float (exact as `Rat` on the integral
literals used throughout), a string, or a boolean. -/
inductive Value where
  | num (q : Rat)
  | str (s : String)
  | bool (b : Bool)
  deriving DecidableEq, Repr

/-- Python `bool(x)` truthiness. -/
def pyTruthy : Value → Bool
  | .num q => q ≠ 0
  | .str s => s ≠ ""
  | .bool b => b

/-- Python `int(string)`: optional sign plus digits. -/
def pyIntParse (t : String) : Option Int :=
  let cs := pyStrip t.toList
  let (neg, cs) :=
    match cs with
    | '-' :: r => (true, r)
    | '+' :: r => (false, r)
    | r => (false, r)
  if cs ≠ [] && cs.all Char.isDigit then
    let n : Nat := cs.foldl (fun a c => a * 10 + (c.toNat - 48)) 0
    some (if neg then -(n : Int) else (n : Int))
  else none

/-- Runtime failures, each standing for the Python exception an operation
raises: popping or indexing an empty list, a failed `int(...)`/`list.index`
conversion, a missing dict key, division by zero, or the interpreter
runaway error raised by `Interpreter.update`. -/
inductive BErr where
  | stackUnderflow
  | indexError
  | valueError
  | keyError
  | zeroDivision
  | typeError
  | runaway
  deriving DecidableEq, Repr

/-- Python `int(x)` on a dynamic value: floats truncate toward zero,
booleans are 0/1, strings parse as integers or raise `ValueError`. -/
def pyToInt : Value → Except BErr Int
  | .num q => .ok (q.num.tdiv q.den)
  | .bool b => .ok (if b then 1 else 0)
  | .str t =>
    match pyIntParse t with
    | some n => .ok n
    | none => .error .valueError

/-- Python `str(x)`. Python 2 renders an integral float with a trailing
`.0`; non-integral rationals (never produced by the programs proved about
here) are rendered as exact fractions. -/
def pyStr : Value → String
  | .str s => s
  | .bool b => if b then "True" else "False"
  | .num q =>
    if q.den = 1 then toString q.num ++ ".0"
    else toString q.num ++ "/" ++ toString q.den

/-- A value viewed as a Python number when it is one (bool is an int
subtype in Python). -/
def valAsRat? : Value → Option Rat
  | .num q => some q
  | .bool b => some (if b then 1 else 0)
  | .str _ => none

/-- Python `==` between dynamic values: numbers (and booleans) compare
numerically, strings compare as strings, a number never equals a
string. -/
def pyEqB (a b : Value) : Bool :=
  match valAsRat? a, valAsRat? b with
  | some x, some y => x = y
  | none, none =>
    match a, b with
    | .str x, .str y => x = y
    | _, _ => false
  | _, _ => false

/-- Python 2 `<` between dynamic values: numbers compare numerically,
strings lexicographically, and in the cross-type case every number
compares below every string (CPython 2 mixed-type ordering). -/
def pyLtB (a b : Value) : Bool :=
  match valAsRat? a, valAsRat? b with
  | some x, some y => x < y
  | some _, none => true
  | none, some _ => false
  | none, none =>
    match a, b with
    | .str x, .str y => x < y
    | _, _ => false

def pyLeB (a b : Value) : Bool := pyLtB a b || pyEqB a b

/-- Variable maps are Python dicts keyed by arbitrary values; lookup and
assignment use Python `==` on the keys. -/
def varLookup (m : List (Value × Value)) (k : Value) : Option Value :=
  match m with
  | [] => none
  | (k', v') :: rest => if pyEqB k' k then some v' else varLookup rest k

def varSet (m : List (Value × Value)) (k : Value) (v : Value) :
    List (Value × Value) :=
  match m with
  | [] => [(k, v)]
  | (k', v') :: rest =>
    if pyEqB k' k then (k, v) :: rest else (k', v') :: varSet rest k v

/-! ## Interpreter state (interpreter.py, class Interpreter) -/

/-- The instruction pointer: a Python int, or the sentinel `False` set by
`exit` (interpreter.py treats `False` as 0 when it is compared or used as
an index, which `ipInt` reproduces). -/
inductive IP where
  | halt
  | at_ (i : Int)
  deriving DecidableEq, Repr

def ipInt : IP → Int
  | .halt => 0
  | .at_ i => i

/-- The `while self.instruction_pointer < len(self.callable.payload)`
comparison. -/
def ipLt (p : IP) (n : Nat) : Bool := ipInt p < (n : Int)

/-- One call-stack frame `{"callable": ..., "eip": ...}`. -/
structure Frame where
  callable : Callable
  eip : Int
  deriving DecidableEq, Repr

/-- One diagnostic snapshot `{"stack": ..., "eip": ..., "callable": ...}`
appended by `update` when stack debugging is on (it is on by default). -/
structure Snapshot where
  stack : List Value
  eip : IP
  callable : Callable
  deriving DecidableEq, Repr

/-- The mutable fields of one `Interpreter` object, plus the console
output produced by `print` (an explicit trace here) and the stream of
bytes behind `random._urandom` (an explicit ambient source here).
`loop_starts` appears as a per-state field for single-interpreter runs;
the fact that the source actually shares one class-level list between all
instances is modelled and proved separately below. -/
structure InterpState where
  stack : List Value
  global_variables : List (Value × Value)
  local_variables : List (Value × Value)
  callable : Callable
  instruction_pointer : IP
  jump_target : Option Int
  command_maximum : Nat
  command_count : Nat
  loop_starts : List Int
  call_stack : List Frame
  callable_functions : List (String × Callable)
  frame_snapshots : List Snapshot
  output : List String
  random_source : List Nat
  deriving DecidableEq, Repr

/-- `stack.append(v)`. -/
def push (s : InterpState) (v : Value) : InterpState :=
  { s with stack := s.stack ++ [v] }

/-- `stack.pop()`: remove and return the last element, `IndexError` on an
empty list. -/
def popV (s : InterpState) : Except BErr (Value × InterpState) :=
  match s.stack.getLast? with
  | none => .error .stackUnderflow
  | some v => .ok (v, { s with stack := s.stack.dropLast })

/-- `stack[len(stack) - 1]`: peek at the last element, `IndexError` on an
empty list. -/
def peekLast (s : InterpState) : Except BErr Value :=
  match s.stack.getLast? with
  | none => .error .stackUnderflow
  | some v => .ok v

/-- Python list indexing with negative-index wraparound. -/
def pyIndex (xs : List Instr) (i : Int) : Except BErr Instr :=
  if 0 ≤ i && i < (xs.length : Int) then
    match xs.get? i.toNat with
    | some x => .ok x
    | none => .error .indexError
  else if -(xs.length : Int) ≤ i && i < 0 then
    match xs.get? (xs.length - (-i).toNat) with
    | some x => .ok x
    | none => .error .indexError
  else .error .indexError

/-- Python slice `xs[i:]` (clamping, with negative-index wraparound). -/
def pySliceFrom (xs : List Instr) (i : Int) : List Instr :=
  if 0 ≤ i then xs.drop i.toNat
  else if -(xs.length : Int) ≤ i then xs.drop (xs.length - (-i).toNat)
  else xs

/-- `remaining_operations.index(name)`: Python `==` between a payload
element and the plain string `name` is true exactly for a bare
operation-name instruction with that text (`CodeString`/`CodeNumber`
objects never equal a string). -/
def payloadIndexOf (xs : List Instr) (name : String) : Option Nat :=
  xs.findIdx? fun i =>
    match i with
    | .op t => t = name
    | _ => false

/-! ## Built-in operators (builtins.py) -/

/-- `strcat`: pop rhs, pop lhs, push `str(lhs) + str(rhs)`. -/
def strcat (s : InterpState) : Except BErr InterpState :=
  match popV s with
  | .error e => .error e
  | .ok (rv, s1) =>
    match popV s1 with
    | .error e => .error e
    | .ok (lv, s2) => .ok (push s2 (.str (pyStr lv ++ pyStr rv)))

/-- `swap`: pop rhs, pop lhs, push rhs, push lhs. -/
def swap (s : InterpState) : Except BErr InterpState :=
  match popV s with
  | .error e => .error e
  | .ok (rv, s1) =>
    match popV s1 with
    | .error e => .error e
    | .ok (lv, s2) => .ok (push (push s2 rv) lv)

/-- `pop`: discard the top element. -/
def pop (s : InterpState) : Except BErr InterpState :=
  match popV s with
  | .error e => .error e
  | .ok (_, s1) => .ok s1

/-- `dup`: push a copy of `stack[len(stack) - 1]`. -/
def dup (s : InterpState) : Except BErr InterpState :=
  match peekLast s with
  | .error e => .error e
  | .ok v => .ok (push s v)

/-- `randint` (the `random` operator): push an unsigned 32-bit integer
unpacked from `random._urandom(4)`, modelled as the head of the ambient
random source. -/
def randint (s : InterpState) : Except BErr InterpState :=
  .ok { push s (.num ((s.random_source.headD 0 : Nat) : Rat)) with
        random_source := s.random_source.drop 1 }

/-- `add` (`+`): pop rhs, pop lhs, each through `int(...)`, push the
sum. -/
def add (s : InterpState) : Except BErr InterpState :=
  match popV s with
  | .error e => .error e
  | .ok (rv, s1) =>
    match pyToInt rv with
    | .error e => .error e
    | .ok rhs =>
      match popV s1 with
      | .error e => .error e
      | .ok (lv, s2) =>
        match pyToInt lv with
        | .error e => .error e
        | .ok lhs => .ok (push s2 (.num ((lhs + rhs : Int) : Rat)))

/-- `sub` (`-`): as `add` but pushing `lhs - rhs`. -/
def sub (s : InterpState) : Except BErr InterpState :=
  match popV s with
  | .error e => .error e
  | .ok (rv, s1) =>
    match pyToInt rv with
    | .error e => .error e
    | .ok rhs =>
      match popV s1 with
      | .error e => .error e
      | .ok (lv, s2) =>
        match pyToInt lv with
        | .error e => .error e
        | .ok lhs => .ok (push s2 (.num ((lhs - rhs : Int) : Rat)))

/-- `mult` (`*`). -/
def mult (s : InterpState) : Except BErr InterpState :=
  match popV s with
  | .error e => .error e
  | .ok (rv, s1) =>
    match pyToInt rv with
    | .error e => .error e
    | .ok rhs =>
      match popV s1 with
      | .error e => .error e
      | .ok (lv, s2) =>
        match pyToInt lv with
        | .error e => .error e
        | .ok lhs => .ok (push s2 (.num ((lhs * rhs : Int) : Rat)))

/-- `div` (`/`): Python 2 integer division floors; dividing by zero raises
`ZeroDivisionError`. -/
def div (s : InterpState) : Except BErr InterpState :=
  match popV s with
  | .error e => .error e
  | .ok (rv, s1) =>
    match pyToInt rv with
    | .error e => .error e
    | .ok rhs =>
      match popV s1 with
      | .error e => .error e
      | .ok (lv, s2) =>
        match pyToInt lv with
        | .error e => .error e
        | .ok lhs =>
          if rhs = 0 then .error .zeroDivision
          else .ok (push s2 (.num ((Int.fdiv lhs rhs : Int) : Rat)))

/-- `println` (`print`): pop and print. -/
def println (s : InterpState) : Except BErr InterpState :=
  match popV s with
  | .error e => .error e
  | .ok (v, s1) => .ok { s1 with output := s1.output ++ [pyStr v] }

/-- `mod` (`%`): Python `%` is floor-modulus; a zero modulus raises
`ZeroDivisionError`. -/
def mod (s : InterpState) : Except BErr InterpState :=
  match popV s with
  | .error e => .error e
  | .ok (rv, s1) =>
    match pyToInt rv with
    | .error e => .error e
    | .ok rhs =>
      match popV s1 with
      | .error e => .error e
      | .ok (lv, s2) =>
        match pyToInt lv with
        | .error e => .error e
        | .ok lhs =>
          if rhs = 0 then .error .zeroDivision
          else .ok (push s2 (.num ((Int.fmod lhs rhs : Int) : Rat)))

/-- `store` (`!`): pop the key, then pop the value; if the key is not a
current local, assign into the globals, else into the locals. -/
def store (s : InterpState) : Except BErr InterpState :=
  match popV s with
  | .error e => .error e
  | .ok (key, s1) =>
    match popV s1 with
    | .error e => .error e
    | .ok (value, s2) =>
      match varLookup s2.local_variables key with
      | none => .ok { s2 with global_variables := varSet s2.global_variables key value }
      | some _ => .ok { s2 with local_variables := varSet s2.local_variables key value }

/-- `fetch` (`@`): pop the key and push the local binding when the key is
a current local, otherwise the global binding (`KeyError` when absent). -/
def fetch (s : InterpState) : Except BErr InterpState :=
  match popV s with
  | .error e => .error e
  | .ok (key, s1) =>
    match varLookup s1.local_variables key with
    | none =>
      match varLookup s1.global_variables key with
      | none => .error .keyError
      | some v => .ok (push s1 v)
    | some v => .ok (push s1 v)

/-- `jump`: pop a relative offset (through `int`) and request a jump to
`instruction_pointer + offset`. -/
def jump (s : InterpState) : Except BErr InterpState :=
  match popV s with
  | .error e => .error e
  | .ok (v, s1) =>
    match pyToInt v with
    | .error e => .error e
    | .ok off => .ok { s1 with jump_target := some (ipInt s1.instruction_pointer + off) }

/-- `ifblock` (`if`): pop the condition; when false, scan the payload from
the current instruction for `"else"` and `"then"` and set the jump target
to whichever comes first plus one — and when either marker is missing the
computed offset stays 0, so the jump target is the `if` instruction
itself. -/
def ifblock (s : InterpState) : Except BErr InterpState :=
  match popV s with
  | .error e => .error e
  | .ok (c, s1) =>
    if pyTruthy c = false then
      let remaining := pySliceFrom s1.callable.payload (ipInt s1.instruction_pointer)
      let elseOff := payloadIndexOf remaining "else"
      let thenOff := payloadIndexOf remaining "then"
      let jumpOffset : Nat :=
        match elseOff, thenOff with
        | some e, some t => if e < t then e + 1 else if t < e then t + 1 else 0
        | _, _ => 0
      .ok { s1 with jump_target := some (ipInt s1.instruction_pointer + jumpOffset) }
    else .ok s1

/-- `elseblock` (`else`): jump just past the next `"then"`; a missing
`"then"` raises `ValueError` from `list.index`. -/
def elseblock (s : InterpState) : Except BErr InterpState :=
  let remaining := pySliceFrom s.callable.payload (ipInt s.instruction_pointer)
  match payloadIndexOf remaining "then" with
  | none => .error .valueError
  | some t => .ok { s with jump_target := some (ipInt s.instruction_pointer + (t + 1)) }

/-- `equals` (`=`): pop rhs, pop lhs, push `rhs == lhs`. -/
def equals (s : InterpState) : Except BErr InterpState :=
  match popV s with
  | .error e => .error e
  | .ok (rv, s1) =>
    match popV s1 with
    | .error e => .error e
    | .ok (lv, s2) => .ok (push s2 (.bool (pyEqB rv lv)))

/-- `greater_than` (`>`): pop rhs, pop lhs, push `rhs > lhs` — the popped
top of the stack on the LEFT of the comparison. -/
def greater_than (s : InterpState) : Except BErr InterpState :=
  match popV s with
  | .error e => .error e
  | .ok (rv, s1) =>
    match popV s1 with
    | .error e => .error e
    | .ok (lv, s2) => .ok (push s2 (.bool (pyLtB lv rv)))

/-- `greater_than_equal`: pop rhs, pop lhs, push `rhs >= lhs` (installed
under the `"<="` key by `init_builtin_commands`). -/
def greater_than_equal (s : InterpState) : Except BErr InterpState :=
  match popV s with
  | .error e => .error e
  | .ok (rv, s1) =>
    match popV s1 with
    | .error e => .error e
    | .ok (lv, s2) => .ok (push s2 (.bool (pyLeB lv rv)))

/-- `less_than` (`<`): pop rhs, pop lhs, push `rhs < lhs`. -/
def less_than (s : InterpState) : Except BErr InterpState :=
  match popV s with
  | .error e => .error e
  | .ok (rv, s1) =>
    match popV s1 with
    | .error e => .error e
    | .ok (lv, s2) => .ok (push s2 (.bool (pyLtB rv lv)))

/-- `less_than_equal`: pop rhs, pop lhs, push `rhs <= lhs` (installed
under the `">="` key by `init_builtin_commands`). -/
def less_than_equal (s : InterpState) : Except BErr InterpState :=
  match popV s with
  | .error e => .error e
  | .ok (rv, s1) =>
    match popV s1 with
    | .error e => .error e
    | .ok (lv, s2) => .ok (push s2 (.bool (pyLeB rv lv)))

/-- `begin`: record `instruction_pointer + 1` on the loop-start stack. -/
def begin (s : InterpState) : Except BErr InterpState :=
  .ok { s with loop_starts := s.loop_starts ++ [ipInt s.instruction_pointer + 1] }

/-- `until`: pop the condition; when true, pop the loop-start stack, else
jump back to its last entry (`IndexError` when it is empty). -/
def untilOp (s : InterpState) : Except BErr InterpState :=
  match popV s with
  | .error e => .error e
  | .ok (c, s1) =>
    if pyTruthy c then
      match s1.loop_starts.getLast? with
      | none => .error .indexError
      | some _ => .ok { s1 with loop_starts := s1.loop_starts.dropLast }
    else
      match s1.loop_starts.getLast? with
      | none => .error .indexError
      | some t => .ok { s1 with jump_target := some t }

/-- `print_stack` (`_stack`): print the whole stack (Python list repr,
rendered with the same numeric convention as `pyStr`). -/
def print_stack (s : InterpState) : Except BErr InterpState :=
  let reprOne : Value → String := fun v =>
    match v with
    | .str t => "'" ++ t ++ "'"
    | _ => pyStr v
  .ok { s with output := s.output ++
        ["[" ++ String.intercalate ", " (s.stack.map reprOne) ++ "]"] }

/-- `not_command` (`not`): pop, push the boolean negation of its
truthiness. -/
def not_command (s : InterpState) : Except BErr InterpState :=
  match popV s with
  | .error e => .error e
  | .ok (v, s1) => .ok (push s1 (.bool (!pyTruthy v)))

/-- `over`: read the top element and PREPEND it — `[top_value] + stack`
puts the copy at the bottom of the stack (the source marks this FIXME). -/
def over (s : InterpState) : Except BErr InterpState :=
  match peekLast s with
  | .error e => .error e
  | .ok v => .ok { s with stack := v :: s.stack }

/-- `nop` (also `;` and `then`): do nothing. -/
def nop (s : InterpState) : Except BErr InterpState := .ok s

/-- `rot`: when the stack holds fewer than two elements, silently return
without touching anything; otherwise pop two and push them back
swapped. -/
def rot (s : InterpState) : Except BErr InterpState :=
  if s.stack.length < 2 then .ok s
  else
    match popV s with
    | .error e => .error e
    | .ok (rv, s1) =>
      match popV s1 with
      | .error e => .error e
      | .ok (lv, s2) => .ok (push (push s2 rv) lv)

/-- `exit`: set the instruction pointer to the `False` sentinel. -/
def exit (s : InterpState) : Except BErr InterpState :=
  .ok { s with instruction_pointer := .halt }

/-- `whileblock` (`while`): pop the condition; when true, jump just past
the next `"then"` (`ValueError` when there is none). -/
def whileblock (s : InterpState) : Except BErr InterpState :=
  match popV s with
  | .error e => .error e
  | .ok (c, s1) =>
    if pyTruthy c then
      let remaining := pySliceFrom s1.callable.payload (ipInt s1.instruction_pointer)
      match payloadIndexOf remaining "then" with
      | none => .error .valueError
      | some t => .ok { s1 with jump_target := some (ipInt s1.instruction_pointer + (t + 1)) }
    else .ok s1

/-- `repeat`: jump back to the last loop start (`IndexError` when the
loop-start stack is empty). -/
def repeatOp (s : InterpState) : Except BErr InterpState :=
  match s.loop_starts.getLast? with
  | none => .error .indexError
  | some t => .ok { s with jump_target := some t }

/-- Modelled from the spec: `builtins.call` is referenced by
`Interpreter.init_builtin_commands` (interpreter.py line 334) but no
`call` function exists in builtins.py.  Per spec section 4.5, invoking a
named callable pushes the caller frame `{callable, return pointer}` onto
the call stack, switches the active callable, resets the pointer to 0
(through the jump-target mechanism the interpreter prescribes for runtime
pointer changes) and empties the local variables; the name of the callee
is taken from the top of the stack. -/
def call (s : InterpState) : Except BErr InterpState :=
  match popV s with
  | .error e => .error e
  | .ok (nameV, s1) =>
    match nameV with
    | .str name =>
      match dictGetC s1.callable_functions name with
      | none => .error .keyError
      | some callee =>
        .ok { s1 with
              call_stack := s1.call_stack ++ [⟨s1.callable, ipInt s1.instruction_pointer⟩],
              callable := callee,
              local_variables := [],
              jump_target := some 0 }
    | _ => .error .typeError

/-- Modelled from the spec: `builtins.returnop` is referenced by
`Interpreter.init_builtin_commands` (interpreter.py line 335) but no
`returnop` function exists in builtins.py.  Per spec section 4.5,
`return` must restore the instruction pointer and active callable from
the top of the call stack and pop that frame. -/
def returnop (s : InterpState) : Except BErr InterpState :=
  match s.call_stack.getLast? with
  | none => .error .indexError
  | some fr =>
    .ok { s with
          callable := fr.callable,
          instruction_pointer := .at_ fr.eip,
          call_stack := s.call_stack.dropLast }

/-! ## Command table and execution core (interpreter.py) -/

/-- A command handler over interpreter state. -/
def Cmd := InterpState → Except BErr InterpState

/-- The command table installed by `Interpreter.init_builtin_commands`,
one entry per assignment, in source order.  The keys are distinct, so the
association list realizes the Python dict it builds. -/
def initBuiltinCommands : List (String × Cmd) :=
  [("strcat", strcat), ("swap", swap), ("pop", pop), ("dup", dup),
   ("random", randint),
   ("+", add), ("-", sub), ("*", mult), ("/", div), ("%", mod),
   ("over", over), ("rot", rot),
   ("<", less_than), (">", greater_than),
   (">=", less_than_equal), ("<=", greater_than_equal), ("=", equals),
   ("if", ifblock), ("jump", jump), ("not", not_command), ("exit", exit),
   ("else", elseblock), ("call", call), ("return", returnop),
   (";", nop), ("then", nop),
   ("begin", begin), ("until", untilOp), ("while", whileblock),
   ("repeat", repeatOp),
   ("!", store), ("@", fetch),
   ("print", println), ("_stack", print_stack), ("nop", nop)]

/-- `self.commands[name]` lookup. -/
def dictGetCmd (m : List (String × Cmd)) (k : String) : Option Cmd :=
  match m with
  | [] => none
  | (k', v') :: rest => if k' = k then some v' else dictGetCmd rest k

/-- One instruction of the `update` loop body: a `CodeString` or
`CodeNumber` pushes its data, anything else dispatches through the
command table (`KeyError` for an unknown name). -/
def execOp (op : Instr) (s : InterpState) : Except BErr InterpState :=
  match op with
  | .num q => .ok (push s (.num q))
  | .str t => .ok (push s (.str t))
  | .op name =>
    match dictGetCmd initBuiltinCommands name with
    | none => .error .keyError
    | some f => f s

/-- How one call to `Interpreter.update` ends (with no cycle time and no
per-cycle operation quota, their default configuration). -/
inductive Outcome where
  | finished
  | halted
  | error (e : BErr)
  | fuelOut
  deriving DecidableEq, Repr

/-- The `update` loop, fuel-bounded; returns the outcome, the final
state, and the number of fully executed commands.  Per iteration, in
source order: check `instruction_pointer < len(payload)`; append a
diagnostic snapshot (stack debugging defaults to on); fetch and execute
the instruction; return on the `False` sentinel; consume a pending jump
target or advance by one; raise the runaway error when the command count
has reached a nonzero `command_maximum`; then increment the command
count. -/
def runLoop : Nat → InterpState → Nat → Outcome × InterpState × Nat
  | 0, s, ex => (.fuelOut, s, ex)
  | fuel + 1, s, ex =>
    if ipLt s.instruction_pointer s.callable.payload.length then
      let s1 : InterpState :=
        { s with frame_snapshots :=
            s.frame_snapshots ++ [⟨s.stack, s.instruction_pointer, s.callable⟩] }
      match pyIndex s1.callable.payload (ipInt s1.instruction_pointer) with
      | .error e => (.error e, s1, ex)
      | .ok op =>
        match execOp op s1 with
        | .error e => (.error e, s1, ex)
        | .ok s2 =>
          match s2.instruction_pointer with
          | .halt => (.halted, s2, ex + 1)
          | .at_ i =>
            let s3 : InterpState :=
              match s2.jump_target with
              | some t => { s2 with instruction_pointer := .at_ t, jump_target := none }
              | none => { s2 with instruction_pointer := .at_ (i + 1) }
            if s3.command_maximum ≤ s3.command_count ∧ 0 < s3.command_maximum then
              (.error .runaway, s3, ex + 1)
            else
              runLoop fuel { s3 with command_count := s3.command_count + 1 } (ex + 1)
    else (.finished, s, ex)

/-- The field assignments `Interpreter.execute` performs before it calls
`update`: the active callable, empty locals, pointer 0, command count 0,
empty snapshot log — and nothing else.  (The preceding
`type(callable) is not compiler.Callable` guard cannot fire in this typed
embedding.) -/
def executeResetState (s : InterpState) (c : Callable) : InterpState :=
  { s with
    callable := c,
    local_variables := [],
    instruction_pointer := .at_ 0,
    command_count := 0,
    frame_snapshots := [] }

/-- `Interpreter.execute`: reset, then run `update`. -/
def executeRun (fuel : Nat) (s : InterpState) (c : Callable) :
    Outcome × InterpState × Nat :=
  runLoop fuel (executeResetState s c) 0

/-- `Interpreter.call`: look the name up in `callable_functions`
(`KeyError` when absent) and execute it. -/
def interpCall (fuel : Nat) (s : InterpState) (name : String) :
    Except BErr (Outcome × InterpState × Nat) :=
  match dictGetC s.callable_functions name with
  | none => .error .keyError
  | some c => .ok (executeRun fuel s c)

/-- A freshly constructed `Interpreter()`: `__init__` assigns the call
stack, command table, callable-function table, stack and globals; the
remaining fields carry their class-level defaults (`command_maximum`
200, and the shared class list `loop_starts`, seen from this instance as
the empty list it holds at class creation). -/
def mkInterpreter : InterpState :=
  { stack := [],
    global_variables := [],
    local_variables := [],
    callable := ⟨[]⟩,
    instruction_pointer := .at_ 0,
    jump_target := none,
    command_maximum := 200,
    command_count := 0,
    loop_starts := [],
    call_stack := [],
    callable_functions := [],
    frame_snapshots := [],
    output := [],
    random_source := [] }

/-- `Interpreter.register_codeblock`: copy every callable of the code
block into `callable_functions`. -/
def register_codeblock (s : InterpState) (cb : CodeBlock) : InterpState :=
  { s with callable_functions :=
      cb.callable_functions.foldl (fun m p => dictSet m p.1 p.2) s.callable_functions }

/-! ## The class-level `loop_starts` list (interpreter.py line 149)

`loop_starts = []` is a class attribute of `Interpreter`.  Neither
`__init__` nor `execute` ever assigns `self.loop_starts`, so no instance
owns its own attribute, Python attribute lookup resolves the name on the
class, and `interp.loop_starts.append(...)` inside `begin` mutates the
one list object every instance sees.  The heap model below makes that
explicit: the heap maps addresses to list objects, the class attribute
holds the address of the single list created at class-definition time,
and an instance record carries the (absent) instance attribute. -/

/-- The attribute state of one `Interpreter` instance relevant to
`loop_starts`: the address of an instance-level `loop_starts` attribute,
when one was ever assigned. -/
structure PyInst where
  loop_starts_attr : Option Nat
  deriving DecidableEq, Repr

/-- The shared heap: list objects by address, and the address stored in
the `Interpreter.loop_starts` class attribute. -/
structure LoopWorld where
  heap : Nat → List Int
  classAddr : Nat

/-- `Interpreter.__init__` assigns `call_stack`, `commands`,
`callable_functions`, `stack`, `global_variables` and
`last_update_time` — and never `self.loop_starts` — so a new instance has
no own `loop_starts` attribute (and the heap is untouched). -/
def initInst : PyInst := { loop_starts_attr := none }

/-- Python attribute lookup `interp.loop_starts`: the instance attribute
when present, else the class attribute. -/
def loopStartsAddr (w : LoopWorld) (i : PyInst) : Nat :=
  i.loop_starts_attr.getD w.classAddr

/-- The list `until`/`repeat`/`begin` observe through an instance. -/
def observedLoopStarts (w : LoopWorld) (i : PyInst) : List Int :=
  w.heap (loopStartsAddr w i)

/-- `builtins.begin` executed on one instance whose instruction pointer
is `ip`: `interp.loop_starts.append(ip + 1)` mutates the referenced list
in place on the heap. -/
def beginOn (w : LoopWorld) (i : PyInst) (ip : Int) : LoopWorld :=
  { w with heap :=
      Function.update w.heap (loopStartsAddr w i) (observedLoopStarts w i ++ [ip + 1]) }

deriving instance DecidableEq for Except

/-! ## Claim C1 -/

/-- Concrete interpreter state with one frame on the call stack, used to
witness the `return` behaviour. -/
def c1State : InterpState :=
  { mkInterpreter with call_stack := [⟨⟨[Instr.op "nop"]⟩, 4⟩] }

/-- C1: the command table installed by `init_builtin_commands` contains a
`call` handler and a `return` handler, and the `return` handler restores
the instruction pointer and the active callable from the top frame of the
call stack and pops that frame (handler bodies modelled from the spec, as
they are absent from builtins.py). -/
theorem c1_call_return_handlers :
    dictGetCmd initBuiltinCommands "call" = some call ∧
    dictGetCmd initBuiltinCommands "return" = some returnop ∧
    ∀ (s : InterpState) (rest : List Frame) (fr : Frame),
      s.call_stack = rest ++ [fr] →
      returnop s = .ok { s with callable := fr.callable,
                                instruction_pointer := .at_ fr.eip,
                                call_stack := rest } := by
  refine ⟨rfl, rfl, ?_⟩
  intro s rest fr h
  simp [returnop, h]

/-- Witness for C1: the `return` handler applied to a state whose call
stack holds exactly one frame. -/
theorem c1_witness :
    returnop c1State = .ok { c1State with callable := ⟨[Instr.op "nop"]⟩,
                                          instruction_pointer := .at_ 4,
                                          call_stack := [] } :=
  c1_call_return_handlers.2.2 c1State [] ⟨⟨[Instr.op "nop"]⟩, 4⟩ rfl

/-! ## Claim C2 -/

/-- A source text declaring three blocks `a`, `b`, `c`. -/
def c2Src : String := ": a\n1 ;\n: b\n2 ;\n: c\n3 ;"

/-- C2 fails on the code: compiling three blocks `a`, `b`, `c` yields a
Program with no entry for `a` at all, whose `b` entry holds the payload
of block `a` — because `build_result` reassigns `current_callable_name`
to the new header name before publishing the pending instruction list,
every block-header token publishes the previous block under the NEW name
(the final block alone is repaired by the end-of-input publish, which
overwrites the misattributed entry). -/
theorem c2_blocks_published_under_wrong_name :
    compileForth c2Src =
      .ok ⟨[("b", ⟨[Instr.num 1, Instr.op ";"]⟩),
            ("c", ⟨[Instr.num 3, Instr.op ";"]⟩)]⟩ ∧
    (compileForth c2Src).map (fun cb => dictGetC cb.callable_functions "a") =
      .ok none := by
  exact ⟨by decide, by decide⟩

/-! ## Claim C7 -/

/-- A source text whose single block contains an `if` with no matching
`then` (and no `else`). -/
def c7Src : String := ": main\n1 if 2 ;"

/-- C7 fails on the code: `lexical_analysis` is an empty stub and no
other compilation stage counts `if`/`else`/`then`, so a block with an
unbalanced `if` compiles without any diagnostic and the Program contains
that block; the imbalance can only surface at run time. -/
theorem c7_unbalanced_if_compiles :
    compileForth c7Src =
      .ok ⟨[("main", ⟨[Instr.num 1, Instr.op "if", Instr.num 2, Instr.op ";"]⟩)]⟩ := by
  decide

/-! ## Claim C9 -/

/-- C9: before stepping begins, `execute` resets exactly the active
callable, the instruction pointer, the local-variable map, the
executed-command counter and the snapshot log, and leaves every other
field — operand stack, globals, call stack, loop-start stack, pending
jump target, command ceiling, callable table, output, random source —
unchanged, so stack values of a previous run stay visible; stepping then
starts from exactly that reset state. -/
theorem c9_execute_resets_exactly (s : InterpState) (c : Callable) (fuel : Nat) :
    (executeResetState s c).callable = c ∧
    (executeResetState s c).instruction_pointer = .at_ 0 ∧
    (executeResetState s c).local_variables = [] ∧
    (executeResetState s c).command_count = 0 ∧
    (executeResetState s c).frame_snapshots = [] ∧
    (executeResetState s c).stack = s.stack ∧
    (executeResetState s c).global_variables = s.global_variables ∧
    (executeResetState s c).call_stack = s.call_stack ∧
    (executeResetState s c).loop_starts = s.loop_starts ∧
    (executeResetState s c).jump_target = s.jump_target ∧
    (executeResetState s c).command_maximum = s.command_maximum ∧
    (executeResetState s c).callable_functions = s.callable_functions ∧
    (executeResetState s c).output = s.output ∧
    (executeResetState s c).random_source = s.random_source ∧
    executeRun fuel s c = runLoop fuel (executeResetState s c) 0 :=
  ⟨rfl, rfl, rfl, rfl, rfl, rfl, rfl, rfl, rfl, rfl, rfl, rfl, rfl, rfl, rfl⟩

/-! ## Claim C10 -/

/-- What a `repeat` (or the false branch of `until`) executed through an
instance targets: `loop_starts[len(loop_starts) - 1]` of the observed
list. -/
def repeatTargetOn (w : LoopWorld) (i : PyInst) : Option Int :=
  (observedLoopStarts w i).getLast?

/-- C10: `loop_starts` is one class-level list shared by every
`Interpreter` instance.  A freshly constructed instance has no own
attribute for it (`__init__` never assigns it, and `execute` does not
touch it either), so executing `begin` through one fresh instance appends
to the very list that `until`/`repeat` observe through any other fresh
instance — in particular the other instance now sees the changed list and
its `repeat` targets the newly pushed loop start. -/
theorem c10_loop_starts_shared (w : LoopWorld) (ip : Int)
    (s : InterpState) (c : Callable) :
    initInst.loop_starts_attr = none ∧
    observedLoopStarts (beginOn w initInst ip) initInst =
      observedLoopStarts w initInst ++ [ip + 1] ∧
    observedLoopStarts (beginOn w initInst ip) initInst ≠
      observedLoopStarts w initInst ∧
    repeatTargetOn (beginOn w initInst ip) initInst = some (ip + 1) ∧
    (executeResetState s c).loop_starts = s.loop_starts := by
  refine ⟨rfl, ?_, ?_, ?_, rfl⟩
  · simp [observedLoopStarts, beginOn, loopStartsAddr]
  · intro h
    have hlen := congrArg List.length h
    simp [observedLoopStarts, beginOn, loopStartsAddr] at hlen
  · simp [repeatTargetOn, observedLoopStarts, beginOn, loopStartsAddr]

/-! ## Claim C3 -/

/-- A well-formed, balanced `if ... then` body with no `else`. -/
def c3Src : String := ": main\n0 if 5 then 7 print ;"

/-- Its compiled payload. -/
def c3Payload : Callable :=
  ⟨[Instr.num 0, Instr.op "if", Instr.num 5, Instr.op "then",
    Instr.num 7, Instr.op "print", Instr.op ";"]⟩

/-- The interpreter state at the moment the `if` at index 1 executes with
the false condition on top of the stack. -/
def c3IfState : InterpState :=
  { mkInterpreter with callable := c3Payload,
                       instruction_pointer := .at_ 1,
                       stack := [Value.num 0] }

/-- The full run of the compiled block. -/
def c3Run : Outcome × InterpState × Nat :=
  executeRun 64 { mkInterpreter with callable_functions := [("main", c3Payload)] }
    c3Payload

/-- C3 fails on the code: with no `else` in the remaining payload,
`ifblock` leaves its computed offset at 0 (the branch that could use the
`then` marker alone requires an `else` to be present too), so the jump
target is the `if` instruction itself.  Instead of skipping to just past
`then`, the run re-executes `if` on an empty stack and dies with a stack
underflow after 2 executed commands, having printed nothing. -/
theorem c3_false_if_without_else_does_not_skip :
    compileForth c3Src = .ok ⟨[("main", c3Payload)]⟩ ∧
    (ifblock c3IfState).map (fun s => s.jump_target) = .ok (some 1) ∧
    c3Run.1 = .error .stackUnderflow ∧
    c3Run.2.1.output = [] ∧
    c3Run.2.2 = 2 := by
  decide

/-! ## Claim C4 -/

/-- The example program of the claim. -/
def c4Src : String := ": main\n5 3 > if \"big\" else \"small\" then print ;"

/-- Its compiled payload. -/
def c4Payload : Callable :=
  ⟨[Instr.num 5, Instr.num 3, Instr.op ">", Instr.op "if", Instr.str "big",
    Instr.op "else", Instr.str "small", Instr.op "then", Instr.op "print",
    Instr.op ";"]⟩

/-- A stack holding 5 below 3, as seen by the `>` operator. -/
def c4GtState : InterpState :=
  { mkInterpreter with stack := [Value.num 5, Value.num 3] }

/-- The full run of the compiled program through `Interpreter.call`. -/
def c4Run : Except BErr (Outcome × InterpState × Nat) :=
  interpCall 64 { mkInterpreter with callable_functions := [("main", c4Payload)] }
    "main"

/-- C4 fails on the code: `greater_than` pushes `rhs > lhs` with the
popped top of the stack (3) on the left, so `5 3 >` pushes the truth of
3 > 5, i.e. false — not the truth of 5 > 3 — and the run takes the
`else` branch and prints "small", not "big". -/
theorem c4_example_prints_small :
    compileForth c4Src = .ok ⟨[("main", c4Payload)]⟩ ∧
    (greater_than c4GtState).map (fun s => s.stack) = .ok [Value.bool false] ∧
    c4Run.map (fun r => (r.1, r.2.1.output)) = .ok (.finished, ["small"]) ∧
    ("small" : String) ≠ "big" := by
  decide

/-! ## Claim C5 -/

/-- The store operation as the claim words it — "pops a value then a
key" — written only for comparison with the source `store`, which pops
the key first. -/
def storeClaimed (s : InterpState) : Except BErr InterpState :=
  match popV s with
  | .error e => .error e
  | .ok (value, s1) =>
    match popV s1 with
    | .error e => .error e
    | .ok (key, s2) =>
      match varLookup s2.local_variables key with
      | none => .ok { s2 with global_variables := varSet s2.global_variables key value }
      | some _ => .ok { s2 with local_variables := varSet s2.local_variables key value }

/-- A stack holding the number 7 below the string "x". -/
def c5State : InterpState :=
  { mkInterpreter with stack := [Value.num 7, Value.str "x"] }

/-- C5 counterexample: on a stack holding 7 below "x" (so "x" is popped
first), the source `store` binds global "x" to 7, while a store that
popped a value then a key — as the claim states — would bind global 7 to
"x"; the two disagree at this input. -/
theorem c5_counterexample :
    (store c5State).map (fun s => s.global_variables) =
      .ok [(Value.str "x", Value.num 7)] ∧
    (storeClaimed c5State).map (fun s => s.global_variables) =
      .ok [(Value.num 7, Value.str "x")] ∧
    store c5State ≠ storeClaimed c5State := by
  decide

/-- C5 amended: `store` pops a KEY then a value (the key is on top); if
the popped key names a local of the current frame the local map is
updated with that key/value pair, otherwise the global map is updated,
and the operand stack loses exactly those two elements. -/
theorem c5_store_pops_key_then_value (s : InterpState) (rest : List Value)
    (v k : Value) (h : s.stack = rest ++ [v, k]) :
    ∃ s', store s = .ok s' ∧ s'.stack = rest ∧
      (varLookup s.local_variables k = none →
        s'.global_variables = varSet s.global_variables k v ∧
        s'.local_variables = s.local_variables) ∧
      (∀ w, varLookup s.local_variables k = some w →
        s'.local_variables = varSet s.local_variables k v ∧
        s'.global_variables = s.global_variables) := by
  have h2 : s.stack = (rest ++ [v]) ++ [k] := by
    rw [h]
    exact (List.append_assoc rest [v] [k]).symm
  cases hv : varLookup s.local_variables k with
  | none =>
    refine ⟨{ s with stack := rest, global_variables := varSet s.global_variables k v },
      ?_, rfl, fun _ => ⟨rfl, rfl⟩, fun w hw => by simp [hv] at hw⟩
    simp [store, popV, h2, hv, List.getLast?_concat, List.dropLast_concat]
  | some w0 =>
    refine ⟨{ s with stack := rest, local_variables := varSet s.local_variables k v },
      ?_, rfl, fun hn => by simp [hv] at hn, fun w hw => ⟨rfl, rfl⟩⟩
    simp [store, popV, h2, hv, List.getLast?_concat, List.dropLast_concat]

/-- Witness for C5: storing with key "x" (not a local) on a concrete
two-element stack updates the globals and empties the stack. -/
theorem c5_witness :
    ∃ s', store c5State = .ok s' ∧ s'.stack = [] ∧
      (varLookup c5State.local_variables (Value.str "x") = none →
        s'.global_variables =
          varSet c5State.global_variables (Value.str "x") (Value.num 7) ∧
        s'.local_variables = c5State.local_variables) ∧
      (∀ w, varLookup c5State.local_variables (Value.str "x") = some w →
        s'.local_variables =
          varSet c5State.local_variables (Value.str "x") (Value.num 7) ∧
        s'.global_variables = c5State.global_variables) :=
  c5_store_pops_key_then_value c5State [] (Value.num 7) (Value.str "x") rfl

/-! ## Claim C8 -/

/-- Whether an operation raised. -/
def isErr (r : Except BErr InterpState) : Bool :=
  match r with
  | .error _ => true
  | .ok _ => false

/-- A one-element stack, two elements short of what `rot` needs and one
short of what the binary operators need. -/
def c8OneState : InterpState := { mkInterpreter with stack := [Value.num 1] }

/-- C8 counterexample: `rot` needs two operands, but invoked on a
one-element stack it raises nothing and silently returns the interpreter
state unchanged — its explicit length guard contradicts the claim that
no built-in detects the shortage locally. -/
theorem c8_counterexample :
    rot c8OneState = .ok c8OneState ∧ isErr (rot c8OneState) = false := by
  decide

/-- C8 amended: every stack-consuming built-in EXCEPT `rot` raises a
fatal error when invoked with fewer operands than it requires (the
attempted pop or peek underflows, or a popped operand fails its `int`
conversion first); `rot` alone checks for fewer than two elements and
silently returns the state unchanged. -/
theorem c8_underflow_is_fatal_except_rot :
    (∀ s : InterpState, s.stack = [] →
      isErr (strcat s) = true ∧ isErr (swap s) = true ∧
      isErr (pop s) = true ∧ isErr (dup s) = true ∧
      isErr (add s) = true ∧ isErr (sub s) = true ∧
      isErr (mult s) = true ∧ isErr (div s) = true ∧
      isErr (println s) = true ∧ isErr (mod s) = true ∧
      isErr (store s) = true ∧ isErr (fetch s) = true ∧
      isErr (jump s) = true ∧ isErr (ifblock s) = true ∧
      isErr (equals s) = true ∧ isErr (greater_than s) = true ∧
      isErr (greater_than_equal s) = true ∧ isErr (less_than s) = true ∧
      isErr (less_than_equal s) = true ∧ isErr (untilOp s) = true ∧
      isErr (not_command s) = true ∧ isErr (over s) = true ∧
      isErr (whileblock s) = true) ∧
    (∀ (s : InterpState) (v : Value), s.stack = [v] →
      isErr (strcat s) = true ∧ isErr (swap s) = true ∧
      isErr (add s) = true ∧ isErr (sub s) = true ∧
      isErr (mult s) = true ∧ isErr (div s) = true ∧
      isErr (mod s) = true ∧ isErr (store s) = true ∧
      isErr (equals s) = true ∧ isErr (greater_than s) = true ∧
      isErr (greater_than_equal s) = true ∧ isErr (less_than s) = true ∧
      isErr (less_than_equal s) = true) ∧
    (∀ s : InterpState, s.stack.length < 2 → rot s = .ok s) := by
  refine ⟨?_, ?_, ?_⟩
  · intro s h
    refine ⟨?_, ?_, ?_, ?_, ?_, ?_, ?_, ?_, ?_, ?_, ?_, ?_, ?_, ?_, ?_, ?_,
      ?_, ?_, ?_, ?_, ?_, ?_, ?_⟩ <;>
      simp [isErr, strcat, swap, pop, dup, add, sub, mult, div, println, mod,
        store, fetch, jump, ifblock, equals, greater_than, greater_than_equal,
        less_than, less_than_equal, untilOp, not_command, over, whileblock,
        popV, peekLast, h]
  · intro s v h
    refine ⟨?_, ?_, ?_, ?_, ?_, ?_, ?_, ?_, ?_, ?_, ?_, ?_, ?_⟩ <;>
      cases hv : pyToInt v <;>
      simp [isErr, strcat, swap, add, sub, mult, div, mod, store, equals,
        greater_than, greater_than_equal, less_than, less_than_equal,
        popV, h, hv]
  · intro s h
    simp [rot, h]

/-- Witness for C8: concrete instances of all three parts — `strcat` on
an empty stack raises, `add` on a one-element stack raises, and `rot` on
a one-element stack silently succeeds. -/
theorem c8_witness :
    isErr (strcat mkInterpreter) = true ∧
    isErr (add c8OneState) = true ∧
    rot c8OneState = .ok c8OneState :=
  ⟨(c8_underflow_is_fatal_except_rot.1 mkInterpreter rfl).1,
   (c8_underflow_is_fatal_except_rot.2.1 c8OneState (Value.num 1) rfl).2.2.1,
   c8_underflow_is_fatal_except_rot.2.2 c8OneState (by decide)⟩

/-! ## Claim C6 -/

/-- The canonical never-halting program of the claim: an infinite
`begin ... until` whose condition (the literal 0) is always false. -/
def c6Src : String := ": main\nbegin 0 until"

def loopCallable : Callable :=
  ⟨[Instr.op "begin", Instr.num 0, Instr.op "until"]⟩

/-- A fresh interpreter whose command ceiling is `n`, with the loop
registered. -/
def loopInterp (n : Nat) : InterpState :=
  { mkInterpreter with command_maximum := n,
                       callable_functions := [("main", loopCallable)] }

/-- The loop state at the top of the `begin` instruction (just before the
snapshot of step 1). -/
def snap0 : Snapshot := ⟨[], .at_ 0, loopCallable⟩

/-- The snapshot taken when the literal 0 at index 1 is about to run. -/
def snapA : Snapshot := ⟨[], .at_ 1, loopCallable⟩

/-- The snapshot taken when the `until` at index 2 is about to run. -/
def snapB : Snapshot := ⟨[Value.num 0], .at_ 2, loopCallable⟩

/-- The run state about to execute the literal 0 at index 1, with command
count `c` and snapshot log `snaps` (ceiling `n`). -/
def loopStateA (n : Nat) (snaps : List Snapshot) (c : Nat) : InterpState :=
  { stack := [], global_variables := [], local_variables := [],
    callable := loopCallable, instruction_pointer := .at_ 1,
    jump_target := none, command_maximum := n, command_count := c,
    loop_starts := [1], call_stack := [],
    callable_functions := [("main", loopCallable)],
    frame_snapshots := snaps, output := [], random_source := [] }

/-- The run state about to execute the `until` at index 2. -/
def loopStateB (n : Nat) (snaps : List Snapshot) (c : Nat) : InterpState :=
  { loopStateA n snaps c with stack := [Value.num 0],
                              instruction_pointer := .at_ 2 }

/-- The outcome and executed-command projections of a run. -/
def runProj (r : Outcome × InterpState × Nat) : Outcome × Nat := (r.1, r.2.2)

theorem dispatch_until :
    dictGetCmd initBuiltinCommands "until" = some untilOp := rfl

theorem dispatch_begin :
    dictGetCmd initBuiltinCommands "begin" = some begin := rfl

/-- One `update` iteration from `loopStateA`: the literal 0 is pushed,
the pointer advances to the `until`, and the run dies with the runaway
error exactly when the (pre-increment) command count has reached a
nonzero ceiling. -/
theorem stepA (n f : Nat) (snaps : List Snapshot) (c ex : Nat) :
    runProj (runLoop (f + 1) (loopStateA n snaps c) ex) =
      if n ≤ c ∧ 0 < n then (Outcome.error BErr.runaway, ex + 1)
      else runProj (runLoop f (loopStateB n (snaps ++ [snapA]) (c + 1)) (ex + 1)) := by
  have hidx : pyIndex loopCallable.payload 1 = .ok (Instr.num 0) := rfl
  by_cases hstop : n ≤ c ∧ 0 < n
  · simp only [runLoop, loopStateA, loopStateB, ipLt, ipInt, hidx, execOp,
      push, snapA, runProj]
    simp [hstop, loopCallable]
  · simp only [runLoop, loopStateA, loopStateB, ipLt, ipInt, hidx, execOp,
      push, snapA, runProj]
    simp [hstop, loopCallable]

/-- One `update` iteration from `loopStateB`: `until` pops the false
condition and jumps back to the recorded loop start, dying with the
runaway error exactly when the command count has reached a nonzero
ceiling. -/
theorem stepB (n f : Nat) (snaps : List Snapshot) (c ex : Nat) :
    runProj (runLoop (f + 1) (loopStateB n snaps c) ex) =
      if n ≤ c ∧ 0 < n then (Outcome.error BErr.runaway, ex + 1)
      else runProj (runLoop f (loopStateA n (snaps ++ [snapB]) (c + 1)) (ex + 1)) := by
  have hidx : pyIndex loopCallable.payload 2 = .ok (Instr.op "until") := rfl
  by_cases hstop : n ≤ c ∧ 0 < n
  · simp only [runLoop, loopStateA, loopStateB, ipLt, ipInt, hidx, execOp,
      dispatch_until, untilOp, popV, pyTruthy, snapB, runProj]
    simp [hstop, loopCallable]
  · simp only [runLoop, loopStateA, loopStateB, ipLt, ipInt, hidx, execOp,
      dispatch_until, untilOp, popV, pyTruthy, snapB, runProj]
    simp [hstop, loopCallable]

/-- The first `update` iteration of the run: `begin` records loop start 1
and can never trip the ceiling (the count is still 0). -/
theorem step0 (n f : Nat) :
    runProj (runLoop (f + 1) (executeResetState (loopInterp n) loopCallable) 0) =
      runProj (runLoop f (loopStateA n [snap0] 1) 1) := by
  have hidx : pyIndex loopCallable.payload 0 = .ok (Instr.op "begin") := rfl
  have hstop : ¬ (n ≤ 0 ∧ 0 < n) := by omega
  have hstop' : ¬ (n = 0 ∧ 0 < n) := by omega
  simp only [runLoop, executeResetState, loopInterp, mkInterpreter, loopStateA,
    ipLt, ipInt, hidx, execOp, dispatch_begin, begin, snap0, runProj]
  simp [hstop, hstop', loopCallable]

/-- From `loopStateA` with `k` commands of headroom left before the
ceiling, the run always dies with the runaway error after exactly `k + 1`
further executed commands. -/
theorem loopA_runaway :
    ∀ (k n f : Nat) (snaps : List Snapshot) (c ex : Nat),
      n = c + k → 1 ≤ c → k + 2 ≤ f →
      runProj (runLoop f (loopStateA n snaps c) ex) =
        (Outcome.error BErr.runaway, ex + k + 1) := by
  intro k
  induction k using Nat.strong_induction_on with
  | _ k ih =>
    intro n f snaps c ex hn hc hf
    obtain ⟨f1, rfl⟩ : ∃ f1, f = f1 + 1 := ⟨f - 1, by omega⟩
    match k, hn with
    | 0, hn =>
      rw [stepA, if_pos (by omega)]
    | 1, hn =>
      rw [stepA, if_neg (by omega)]
      obtain ⟨f2, rfl⟩ : ∃ f2, f1 = f2 + 1 := ⟨f1 - 1, by omega⟩
      rw [stepB, if_pos (by omega)]
    | k + 2, hn =>
      rw [stepA, if_neg (by omega)]
      obtain ⟨f2, rfl⟩ : ∃ f2, f1 = f2 + 1 := ⟨f1 - 1, by omega⟩
      rw [stepB, if_neg (by omega)]
      have := ih k (by omega) n f2 (snaps ++ [snapA] ++ [snapB]) (c + 2)
        (ex + 1 + 1) (by omega) (by omega) (by omega)
      rw [this]
      have hx : ex + 1 + 1 + k + 1 = ex + (k + 2) + 1 := by omega
      rw [hx]

/-- C6 counterexample: the infinite `begin 0 until` loop compiles to the
expected payload, and executed with ceiling 2 it terminates with the
fatal runaway error only after 3 executed commands — not after exactly 2
as the claim states (the ceiling check reads the counter before its
post-command increment). -/
theorem c6_counterexample :
    compileForth c6Src = .ok ⟨[("main", loopCallable)]⟩ ∧
    (executeRun 20 (loopInterp 2) loopCallable).1 = .error .runaway ∧
    (executeRun 20 (loopInterp 2) loopCallable).2.2 = 3 ∧
    (3 : Nat) ≠ 2 := by
  decide

/-- C6 amended: a program that never halts on its own, run with command
ceiling n > 0, terminates with the fatal runaway error after exactly
n + 1 executed commands — one more than the ceiling — and never runs
forever. -/
theorem c6_runaway_after_ceiling_plus_one (n : Nat) (hn : 0 < n) :
    (executeRun (n + 3) (loopInterp n) loopCallable).1 =
      Outcome.error BErr.runaway ∧
    (executeRun (n + 3) (loopInterp n) loopCallable).2.2 = n + 1 := by
  have h0 : runProj (runLoop (n + 3) (executeResetState (loopInterp n) loopCallable) 0) =
      runProj (runLoop (n + 2) (loopStateA n [snap0] 1) 1) := step0 n (n + 2)
  have h1 : runProj (runLoop (n + 2) (loopStateA n [snap0] 1) 1) =
      (Outcome.error BErr.runaway, 1 + (n - 1) + 1) :=
    loopA_runaway (n - 1) n (n + 2) [snap0] 1 1 (by omega) (by omega) (by omega)
  have h2 : runProj (executeRun (n + 3) (loopInterp n) loopCallable) =
      (Outcome.error BErr.runaway, 1 + (n - 1) + 1) := by
    rw [executeRun, h0, h1]
  have h3 : 1 + (n - 1) + 1 = n + 1 := by omega
  rw [h3] at h2
  exact ⟨congrArg Prod.fst h2, congrArg Prod.snd h2⟩

/-- Witness for C6: with ceiling 5, the loop dies with the runaway error
after exactly 6 executed commands. -/
theorem c6_witness :
    0 < 5 ∧
    ((executeRun 8 (loopInterp 5) loopCallable).1 =
        Outcome.error BErr.runaway ∧
      (executeRun 8 (loopInterp 5) loopCallable).2.2 = 6) :=
  ⟨by decide, c6_runaway_after_ceiling_plus_one 5 (by decide)⟩

end Forth
